import Mathlib

/-
  Verification of the reminder decision engine of the baby sleep bot.

  Shallow embedding conventions:
  * Timestamps are integers counting seconds; calendar dates used for the
    age computation are (year, month) pairs of integers.
  * The external store (Supabase) is modelled by explicit structures.  The
    notification_history table is kept in the sent_at descending order that
    the order(desc) query of the store produces; theorems that rely on
    chronology state that order as an explicit Pairwise hypothesis.
  * A Python try/except that swallows an exception and returns a default is
    modelled by an Except-valued core function plus a total wrapper that
    maps errors to the default, mirroring the source structure.
  * Message strings reproduce the structure of the source text; emoji and
    apostrophes of the literals are elided (formatting is out of scope).
-/

namespace BabySleep

/-- Notification type constant of NotificationManager. -/
def SLEEP_REMINDERS : String := "sleep_reminders"

/-- Notification type constant of NotificationManager. -/
def BEDTIME_ALERTS : String := "bedtime_alerts"

/-- A row of the notification_history table.  sent_at is the parsed
timestamp in seconds; sent_at_malformed marks a stored timestamp string on
which fromisoformat raises; success is the stored success flag, none
modelling a row where the field is missing (dictionary access raises). -/
structure Entry where
  user_id : Nat
  notification_type : String
  child_id : Option String
  sent_at : Int
  sent_at_malformed : Bool
  success : Option Bool
  message_text : String
  telegram_message_id : Option Nat
deriving Repr, DecidableEq

/-- The notification store: the history table, kept in the sent_at
descending order returned by the order(desc) query, plus a flag modelling
a store query that raises. -/
structure NotificationStore where
  history : List Entry
  query_fails : Bool
deriving Repr, DecidableEq

/-- The WHERE clause of get_notification_history: match the user and,
when a notification type is given, the type. -/
def history_filter (user_id : Nat) (notification_type : Option String) (e : Entry) : Bool :=
  e.user_id == user_id &&
    (match notification_type with
     | some t => e.notification_type == t
     | none => true)

/-- Core of get_notification_history: run the query (which can raise),
returning the user rows of the requested type, most recent first, at most
limit of them. -/
def get_notification_historyE (s : NotificationStore) (user_id : Nat)
    (notification_type : Option String) (limit : Nat) : Except String (List Entry) :=
  if s.query_fails then Except.error "StoreUnavailableError"
  else Except.ok ((s.history.filter (history_filter user_id notification_type)).take limit)

/-- get_notification_history of NotificationManager: on any exception the
except clause returns the empty list. -/
def get_notification_history (s : NotificationStore) (user_id : Nat)
    (notification_type : Option String) (limit : Nat) : List Entry :=
  match get_notification_historyE s user_id notification_type limit with
  | Except.ok h => h
  | Except.error _ => []

/-- The history rows of one user and one notification type, most recent
first (the table order restricted by the query filter). -/
def relevant_history (s : NotificationStore) (user_id : Nat) (ntype : String) : List Entry :=
  s.history.filter (history_filter user_id (some ntype))

/-- Python truthiness of the optional child filter argument: an absent or
empty string is falsy. -/
def child_filter_active : Option String → Bool
  | none => false
  | some c => c != ""

/-- The scan over the fetched history inside should_send_notification:
skip unsuccessful rows, skip rows of the wrong child when a child filter
is active, and on the first successful row compare the elapsed time with
the interval, then stop.  Missing fields and malformed timestamps raise. -/
def check_history_loop (now : Int) (child_id : Option String) (min_interval_minutes : Int) :
    List Entry → Except String Bool
  | [] => Except.ok true
  | e :: rest =>
    match e.success with
    | none => Except.error "KeyError: success"
    | some s =>
      if s then
        if child_filter_active child_id && (e.child_id != child_id) then
          check_history_loop now child_id min_interval_minutes rest
        else if e.sent_at_malformed then Except.error "ValueError: fromisoformat"
        else if now - e.sent_at < min_interval_minutes * 60 then Except.ok false
        else Except.ok true
      else check_history_loop now child_id min_interval_minutes rest

/-- Body of should_send_notification: fetch the 10 most recent rows of the
(user, type) history; with no history allow; otherwise scan. -/
def should_send_notificationE (s : NotificationStore) (now : Int) (user_id : Nat)
    (notification_type : String) (child_id : Option String) (min_interval_minutes : Int) :
    Except String Bool :=
  let history := get_notification_history s user_id (some notification_type) 10
  if history.isEmpty then Except.ok true
  else check_history_loop now child_id min_interval_minutes history

/-- should_send_notification of NotificationManager: the except clause of
the source maps any exception to true (fail open). -/
def should_send_notification (s : NotificationStore) (now : Int) (user_id : Nat)
    (notification_type : String) (child_id : Option String) (min_interval_minutes : Int) :
    Bool :=
  match should_send_notificationE s now user_id notification_type child_id min_interval_minutes with
  | Except.ok b => b
  | Except.error _ => true

/-! Age policy and condition evaluators of UserManager. -/

/-- A calendar date reduced to the fields the age computation reads. -/
structure CalDate where
  year : Int
  month : Int
deriving Repr, DecidableEq

/-- A closed sleep session reduced to the field the evaluators read. -/
structure SleepSession where
  end_time : Int
deriving Repr, DecidableEq

/-- A row of the children table together with the store answers the
evaluators request for it: the date of birth (with a flag modelling a
failing date query) and the most recent closed session of the child as
returned by the order(end_time desc) limit 1 query. -/
structure Child where
  id : String
  name : String
  dob_year : Int
  dob_month : Int
  dob_query_fails : Bool
  latest_session : Option SleepSession
deriving Repr, DecidableEq

/-- The month arithmetic of get_child_age_in_months, already clamped. -/
def age_months_clamped (today : CalDate) (c : Child) : Int :=
  max 0 ((today.year - c.dob_year) * 12 + (today.month - c.dob_month))

/-- get_child_age_in_months of UserManager: none when the date query
raises, otherwise the clamped month difference. -/
def get_child_age_in_months (today : CalDate) (c : Child) : Option Int :=
  if c.dob_query_fails then none
  else some (age_months_clamped today c)

/-- A sleep recommendation record. -/
structure Recommendation where
  wake_window : Int
  sleep_duration : Int
  description : String
deriving Repr, DecidableEq

/-- get_age_based_recommendations of UserManager. -/
def get_age_based_recommendations (age_in_months : Int) : Recommendation :=
  if age_in_months ≤ 3 then ⟨45, 120, "newborn (0-3 months)"⟩
  else if age_in_months ≤ 6 then ⟨90, 90, "infant (3-6 months)"⟩
  else if age_in_months ≤ 12 then ⟨120, 90, "older infant (6-12 months)"⟩
  else if age_in_months ≤ 24 then ⟨180, 120, "toddler (12-24 months)"⟩
  else ⟨240, 90, "young child (2+ years)"⟩

/-- The per child record produced by get_children_needing_bedtime_alerts. -/
structure BedtimeInfo where
  child : Child
  age_months : Int
  recommendations : Recommendation
  next_sleep_time : Int
  minutes_until_bedtime : Int
deriving Repr, DecidableEq

/-- The body of the loop of get_children_needing_bedtime_alerts for one
child: skip the child when the age is unknown or it has no session;
otherwise alert when the predicted bedtime is between 0 and 10 minutes
away, reporting whole minutes (Python floor division of the seconds). -/
def bedtime_alert_for_child (today : CalDate) (now : Int) (c : Child) : Option BedtimeInfo :=
  match get_child_age_in_months today c with
  | none => none
  | some age =>
    let recs := get_age_based_recommendations age
    match c.latest_session with
    | none => none
    | some s =>
      let next_sleep_time := s.end_time + recs.wake_window * 60
      let time_until_bedtime := next_sleep_time - now
      if 0 ≤ time_until_bedtime ∧ time_until_bedtime ≤ 600 then
        some ⟨c, age, recs, next_sleep_time, time_until_bedtime.fdiv 60⟩
      else none

/-- get_children_needing_bedtime_alerts of UserManager; store_fails models
the except clause that turns any exception into an empty result. -/
def get_children_needing_bedtime_alerts (today : CalDate) (now : Int) (store_fails : Bool)
    (children : List Child) : List BedtimeInfo :=
  if store_fails then []
  else children.filterMap (bedtime_alert_for_child today now)

/-- The per child record produced by get_children_needing_reminders. -/
structure ReminderInfo where
  child : Child
  age_months : Int
  recommendations : Recommendation
  last_session_time : Option Int
deriving Repr, DecidableEq

/-- The body of the loop of get_children_needing_reminders for one child:
remind when the child has no session at all, or when more than twice the
recommended sleep duration has elapsed since the last session ended. -/
def reminder_for_child (today : CalDate) (now : Int) (c : Child) : Option ReminderInfo :=
  match get_child_age_in_months today c with
  | none => none
  | some age =>
    let recs := get_age_based_recommendations age
    let expected_interval_minutes := recs.sleep_duration * 2
    match c.latest_session with
    | none => some ⟨c, age, recs, none⟩
    | some s =>
      if now - s.end_time > expected_interval_minutes * 60 then
        some ⟨c, age, recs, some s.end_time⟩
      else none

/-- get_children_needing_reminders of UserManager; store_fails models the
except clause that turns any exception into an empty result. -/
def get_children_needing_reminders (today : CalDate) (now : Int) (store_fails : Bool)
    (children : List Child) : List ReminderInfo :=
  if store_fails then []
  else children.filterMap (reminder_for_child today now)

/-! Delivery pipeline of NotificationService. -/

/-- Outcome of one bot.send_message call: delivered with a message id,
raised TelegramRetryAfter with a retry delay in seconds, raised
TelegramBadRequest with its text, or raised any other exception. -/
inductive SendOutcome where
  | success (message_id : Nat)
  | retryAfter (seconds : Nat)
  | badRequest (text : String)
  | otherError (text : String)
deriving Repr, DecidableEq

/-- Python truthiness of the optional child_id argument of
log_notification_sent: the row column stays empty for a falsy value. -/
def truthy_str : Option String → Option String
  | none => none
  | some c => if c == "" then none else some c

/-- Python truthiness of the optional telegram_message_id argument of
log_notification_sent: the row column stays empty for a falsy value. -/
def truthy_nat : Option Nat → Option Nat
  | none => none
  | some n => if n == 0 then none else some n

/-- log_notification_sent of NotificationManager: the history row the
insert appends (sent_at is datetime.now at the time of logging). -/
def log_notification_sent (now : Int) (user_id : Nat) (notification_type : String)
    (message_text : String) (child_id : Option String) (telegram_message_id : Option Nat)
    (success : Bool) : Entry :=
  { user_id := user_id
    notification_type := notification_type
    child_id := truthy_str child_id
    sent_at := now
    sent_at_malformed := false
    success := some success
    message_text := message_text
    telegram_message_id := truthy_nat telegram_message_id }

/-- The single child reminder text of send_sleep_reminder; hours ago is
the Python floor division of the elapsed seconds. -/
def reminder_message_single (now : Int) (info : ReminderInfo) : String :=
  "Hi! It is time to log a sleep session for " ++ info.child.name ++ ". " ++
    (match info.last_session_time with
     | some t => "Last session was " ++ toString ((now - t).fdiv 3600) ++ " hours ago. "
     | none => "No sleep sessions recorded yet. ") ++
    "Do not forget to track the sleep patterns of your baby!"

/-- The reminder text of send_sleep_reminder: a single child gets the
detailed text, otherwise one combined text joining every child name. -/
def reminder_message (now : Int) (children_info : List ReminderInfo) : String :=
  match children_info with
  | [info] => reminder_message_single now info
  | _ =>
    "Hi! It is time to log sleep sessions for " ++
      String.intercalate ", " (children_info.map (fun info => info.child.name)) ++
      ". Do not forget to track the sleep patterns of your babies!"

/-- The single child bedtime text of send_bedtime_alert. -/
def bedtime_message_single (info : BedtimeInfo) : String :=
  if info.minutes_until_bedtime == 0 then
    "It is bedtime for " ++ info.child.name ++ "! Time to start the sleep routine."
  else
    info.child.name ++ " should go to bed in " ++ toString info.minutes_until_bedtime ++
      " minute" ++ (if info.minutes_until_bedtime != 1 then "s" else "") ++
      "! Time to start preparing for sleep."

/-- The per child fragment of the combined bedtime text. -/
def bedtime_child_detail (info : BedtimeInfo) : String :=
  if info.minutes_until_bedtime == 0 then info.child.name ++ " (now)"
  else info.child.name ++ " (" ++ toString info.minutes_until_bedtime ++ "min)"

/-- The bedtime text of send_bedtime_alert: a single child gets the
detailed text, otherwise one combined text joining every child detail. -/
def bedtime_message (children_info : List BedtimeInfo) : String :=
  match children_info with
  | [info] => bedtime_message_single info
  | _ =>
    "Bedtime approaching for: " ++
      String.intercalate ", " (children_info.map bedtime_child_detail) ++
      "! Time to start preparing for sleep."

/-- Observable effects of one send request: the chat messages delivered,
the history rows appended, and the backoff delays awaited, each in order. -/
structure SendResult where
  sent_messages : List (Nat × String)
  logged : List Entry
  waits : List Nat
deriving Repr, DecidableEq

/-- send_sleep_reminder of NotificationService, driven by the successive
outcomes of its bot.send_message calls: on delivery it logs one row per
child with the message id; on TelegramRetryAfter it sleeps the signalled
delay and calls itself again; on TelegramBadRequest or any other
exception it only writes to the application logger, appending nothing. -/
def send_sleep_reminder (now : Int) (user_id : Nat) (children_info : List ReminderInfo) :
    List SendOutcome → SendResult
  | [] => ⟨[], [], []⟩
  | o :: rest =>
    match o with
    | SendOutcome.success mid =>
      let message := reminder_message now children_info
      ⟨[(mid, message)],
        children_info.map (fun info =>
          log_notification_sent now user_id SLEEP_REMINDERS message
            (some info.child.id) (some mid) true),
        []⟩
    | SendOutcome.retryAfter secs =>
      let r := send_sleep_reminder now user_id children_info rest
      ⟨r.sent_messages, r.logged, secs :: r.waits⟩
    | SendOutcome.badRequest _ => ⟨[], [], []⟩
    | SendOutcome.otherError _ => ⟨[], [], []⟩

/-- send_bedtime_alert of NotificationService, same control flow as
send_sleep_reminder with the bedtime text and notification type. -/
def send_bedtime_alert (now : Int) (user_id : Nat) (children_info : List BedtimeInfo) :
    List SendOutcome → SendResult
  | [] => ⟨[], [], []⟩
  | o :: rest =>
    match o with
    | SendOutcome.success mid =>
      let message := bedtime_message children_info
      ⟨[(mid, message)],
        children_info.map (fun info =>
          log_notification_sent now user_id BEDTIME_ALERTS message
            (some info.child.id) (some mid) true),
        []⟩
    | SendOutcome.retryAfter secs =>
      let r := send_bedtime_alert now user_id children_info rest
      ⟨r.sent_messages, r.logged, secs :: r.waits⟩
    | SendOutcome.badRequest _ => ⟨[], [], []⟩
    | SendOutcome.otherError _ => ⟨[], [], []⟩

/-- The message id a chain of attempts finally delivers with: retry after
rate limits, stop at the first delivery or at any other failure. -/
def delivered_message_id : List SendOutcome → Option Nat
  | [] => none
  | SendOutcome.success mid :: _ => some mid
  | SendOutcome.retryAfter _ :: rest => delivered_message_id rest
  | SendOutcome.badRequest _ :: _ => none
  | SendOutcome.otherError _ :: _ => none

/-! Scheduler passes of NotificationService. -/

/-- One opted in user of a pass: the telegram id, the stored children (with
a flag modelling a failing children query) and the scripted outcomes of
the send calls to this user. -/
structure UserCtx where
  telegram_user_id : Nat
  children_query_fails : Bool
  children : List Child
  outcomes : List SendOutcome
deriving Repr, DecidableEq

/-- The body of the user loop of check_and_send_reminders: evaluate the
reminder condition, consult the cooldown with no child filter and a 60
minute interval, and send on approval.  Every callee catches its own
exceptions in the source, so the step is total. -/
def process_user_reminders (today : CalDate) (now : Int) (s : NotificationStore)
    (u : UserCtx) : SendResult :=
  let infos := get_children_needing_reminders today now u.children_query_fails u.children
  if infos.isEmpty then ⟨[], [], []⟩
  else if should_send_notification s now u.telegram_user_id SLEEP_REMINDERS none 60 then
    send_sleep_reminder now u.telegram_user_id infos u.outcomes
  else ⟨[], [], []⟩

/-- check_and_send_reminders of NotificationService: one evaluation pass
over the users with sleep reminders enabled, in store order. -/
def check_and_send_reminders (today : CalDate) (now : Int) (s : NotificationStore)
    (users : List UserCtx) : List (Nat × SendResult) :=
  users.map (fun u => (u.telegram_user_id, process_user_reminders today now s u))

/-- The body of the user loop of check_and_send_bedtime_alerts: evaluate
the bedtime condition, consult the cooldown with no child filter and a 30
minute interval, and send on approval. -/
def process_user_bedtime (today : CalDate) (now : Int) (s : NotificationStore)
    (u : UserCtx) : SendResult :=
  let infos := get_children_needing_bedtime_alerts today now u.children_query_fails u.children
  if infos.isEmpty then ⟨[], [], []⟩
  else if should_send_notification s now u.telegram_user_id BEDTIME_ALERTS none 30 then
    send_bedtime_alert now u.telegram_user_id infos u.outcomes
  else ⟨[], [], []⟩

/-- check_and_send_bedtime_alerts of NotificationService: one evaluation
pass over the users with bedtime alerts enabled, in store order. -/
def check_and_send_bedtime_alerts (today : CalDate) (now : Int) (s : NotificationStore)
    (users : List UserCtx) : List (Nat × SendResult) :=
  users.map (fun u => (u.telegram_user_id, process_user_bedtime today now s u))

/-! Claim C5: totality and band table of the age policy. -/

/-- C5: the age policy is total and returns exactly one band of the table,
bands evaluated in ascending order with the first match winning (age at
most 3 gives 45/120, at most 6 gives 90/90, at most 12 gives 120/90, at
most 24 gives 180/120, above 24 gives 240/90); every negative input gets
the band of age 0; and the computed age in months is clamped to be
nonnegative. -/
theorem age_policy_total_bands :
    (∀ a : Int, a ≤ 3 →
      get_age_based_recommendations a = ⟨45, 120, "newborn (0-3 months)"⟩) ∧
    (∀ a : Int, 3 < a → a ≤ 6 →
      get_age_based_recommendations a = ⟨90, 90, "infant (3-6 months)"⟩) ∧
    (∀ a : Int, 6 < a → a ≤ 12 →
      get_age_based_recommendations a = ⟨120, 90, "older infant (6-12 months)"⟩) ∧
    (∀ a : Int, 12 < a → a ≤ 24 →
      get_age_based_recommendations a = ⟨180, 120, "toddler (12-24 months)"⟩) ∧
    (∀ a : Int, 24 < a →
      get_age_based_recommendations a = ⟨240, 90, "young child (2+ years)"⟩) ∧
    (∀ a : Int, a < 0 →
      get_age_based_recommendations a = get_age_based_recommendations 0) ∧
    (∀ a : Int, get_age_based_recommendations a ∈
      [(⟨45, 120, "newborn (0-3 months)"⟩ : Recommendation),
        ⟨90, 90, "infant (3-6 months)"⟩, ⟨120, 90, "older infant (6-12 months)"⟩,
        ⟨180, 120, "toddler (12-24 months)"⟩, ⟨240, 90, "young child (2+ years)"⟩]) ∧
    (∀ (today : CalDate) (c : Child) (m : Int),
      get_child_age_in_months today c = some m → 0 ≤ m) := by
  refine ⟨?_, ?_, ?_, ?_, ?_, ?_, ?_, ?_⟩
  · intro a h1
    simp [get_age_based_recommendations, h1]
  · intro a h1 h2
    have h3 : ¬(a ≤ 3) := by omega
    simp [get_age_based_recommendations, h2, h3]
  · intro a h1 h2
    have h3 : ¬(a ≤ 3) := by omega
    have h6 : ¬(a ≤ 6) := by omega
    simp [get_age_based_recommendations, h2, h3, h6]
  · intro a h1 h2
    have h3 : ¬(a ≤ 3) := by omega
    have h6 : ¬(a ≤ 6) := by omega
    have h12 : ¬(a ≤ 12) := by omega
    simp [get_age_based_recommendations, h2, h3, h6, h12]
  · intro a h1
    have h3 : ¬(a ≤ 3) := by omega
    have h6 : ¬(a ≤ 6) := by omega
    have h12 : ¬(a ≤ 12) := by omega
    have h24 : ¬(a ≤ 24) := by omega
    simp [get_age_based_recommendations, h3, h6, h12, h24]
  · intro a h1
    have h3 : a ≤ 3 := by omega
    have h0 : (0 : Int) ≤ 3 := by omega
    simp [get_age_based_recommendations, h3, h0]
  · intro a
    by_cases h1 : a ≤ 3
    · simp [get_age_based_recommendations, h1]
    · by_cases h2 : a ≤ 6
      · simp [get_age_based_recommendations, h1, h2]
      · by_cases h3 : a ≤ 12
        · simp [get_age_based_recommendations, h1, h2, h3]
        · by_cases h4 : a ≤ 24
          · simp [get_age_based_recommendations, h1, h2, h3, h4]
          · simp [get_age_based_recommendations, h1, h2, h3, h4]
  · intro today c m h
    unfold get_child_age_in_months at h
    by_cases hc : c.dob_query_fails
    · simp [hc] at h
    · simp [hc] at h
      rw [← h]
      unfold age_months_clamped
      exact le_max_left 0 _

/-- Witness for C5 at concrete inputs: a negative age clamps to the band
of age 0, age 30 falls to the final band, and a concrete computed age is
nonnegative. -/
theorem age_policy_total_bands_witness :
    get_age_based_recommendations (-5) = get_age_based_recommendations 0 ∧
    get_age_based_recommendations 30 = ⟨240, 90, "young child (2+ years)"⟩ ∧
    (0 : Int) ≤ 4 := by
  refine ⟨age_policy_total_bands.2.2.2.2.2.1 (-5) (by decide),
    age_policy_total_bands.2.2.2.2.1 30 (by decide), ?_⟩
  exact age_policy_total_bands.2.2.2.2.2.2.2 ⟨2024, 5⟩
    ⟨"child-1", "Alice", 2024, 1, false, none⟩ 4 (by decide)

/-! Claim C4: the needs reminder predicate. -/

/-- C4: a child needs a reminder exactly when it has no closed session, or
the elapsed time since the end of the last session strictly exceeds twice
the recommended sleep duration of its age band, in seconds; in particular
a child without sessions always needs one. -/
theorem reminder_predicate_iff (today : CalDate) (now : Int) (c : Child)
    (hdob : c.dob_query_fails = false) :
    get_children_needing_reminders today now false [c] ≠ [] ↔
      (c.latest_session = none ∨
        ∃ s, c.latest_session = some s ∧
          ((get_age_based_recommendations (age_months_clamped today c)).sleep_duration * 2) * 60
            < now - s.end_time) := by
  unfold get_children_needing_reminders reminder_for_child get_child_age_in_months
  cases h : c.latest_session with
  | none => simp [hdob, h]
  | some s =>
    simp [hdob, h]
    omega

/-- Witness for C4: a four month old child whose last session ended 200
minutes ago (threshold 180 minutes) needs a reminder. -/
theorem reminder_predicate_iff_witness :
    get_children_needing_reminders ⟨2024, 5⟩ 12000 false
      [⟨"child-1", "Alice", 2024, 1, false, some ⟨0⟩⟩] ≠ [] := by
  exact (reminder_predicate_iff ⟨2024, 5⟩ 12000
      ⟨"child-1", "Alice", 2024, 1, false, some ⟨0⟩⟩ rfl).mpr
    (Or.inr ⟨⟨0⟩, rfl, by decide⟩)

/-! Claim C3: the needs bedtime alert predicate. -/

/-- C3: a child needs a bedtime alert exactly when it has a closed session
and the predicted bedtime (last end time plus the wake window of its age
band) lies between 0 and 10 minutes from now, both ends included; a child
without a closed session never triggers; and the reported minutes until
bedtime are the nonnegative truncation toward zero of that distance. -/
theorem bedtime_predicate_iff (today : CalDate) (now : Int) (c : Child)
    (hdob : c.dob_query_fails = false) :
    (get_children_needing_bedtime_alerts today now false [c] ≠ [] ↔
      ∃ s, c.latest_session = some s ∧
        0 ≤ s.end_time +
            (get_age_based_recommendations (age_months_clamped today c)).wake_window * 60 - now ∧
        s.end_time +
            (get_age_based_recommendations (age_months_clamped today c)).wake_window * 60 - now
          ≤ 600) ∧
    (c.latest_session = none → get_children_needing_bedtime_alerts today now false [c] = []) ∧
    (∀ info ∈ get_children_needing_bedtime_alerts today now false [c],
      0 ≤ info.minutes_until_bedtime ∧
      info.minutes_until_bedtime = Int.tdiv (info.next_sleep_time - now) 60) := by
  refine ⟨?_, ?_, ?_⟩
  · unfold get_children_needing_bedtime_alerts bedtime_alert_for_child get_child_age_in_months
    cases h : c.latest_session with
    | none => simp [hdob, h]
    | some s => simp [hdob, h]
  · intro h
    unfold get_children_needing_bedtime_alerts bedtime_alert_for_child get_child_age_in_months
    simp [hdob, h]
  · intro info hinfo
    unfold get_children_needing_bedtime_alerts bedtime_alert_for_child
      get_child_age_in_months at hinfo
    cases h : c.latest_session with
    | none => simp [hdob, h] at hinfo
    | some s =>
      simp [hdob, h] at hinfo
      obtain ⟨htu, hrec⟩ := hinfo
      subst hrec
      constructor
      · exact Int.fdiv_nonneg (by omega) (by omega)
      · exact Int.fdiv_eq_tdiv (by omega) (by omega)

/-- Witness for C3: a four month old child (wake window 90 minutes) whose
last session ended 80 minutes ago is exactly 10 minutes from bedtime and
triggers the alert. -/
theorem bedtime_predicate_iff_witness :
    get_children_needing_bedtime_alerts ⟨2024, 5⟩ 4800 false
      [⟨"child-1", "Alice", 2024, 1, false, some ⟨0⟩⟩] ≠ [] := by
  exact (bedtime_predicate_iff ⟨2024, 5⟩ 4800
      ⟨"child-1", "Alice", 2024, 1, false, some ⟨0⟩⟩ rfl).1.mpr
    ⟨⟨0⟩, rfl, by decide, by decide⟩

/-! Claim C1: the cooldown window, and claim C9: fail open behaviour. -/

/-- The row predicate the history scan reacts to: a stored success flag
that is present and true. -/
def is_success (e : Entry) : Bool := e.success == some true

theorem is_success_iff (e : Entry) : is_success e = true ↔ e.success = some true := by
  simp [is_success]

/-- With no child filter and well formed rows, the history scan decides by
the first successful row it meets: allow when there is none, otherwise
allow exactly when the elapsed time reaches the interval. -/
theorem check_history_loop_none (now m : Int) :
    ∀ l : List Entry,
      (∀ e ∈ l, e.success.isSome = true ∧ e.sent_at_malformed = false) →
      check_history_loop now none m l =
        Except.ok (match l.find? is_success with
          | none => true
          | some f => decide (m * 60 ≤ now - f.sent_at)) := by
  intro l
  induction l with
  | nil => intro _; rfl
  | cons e rest ih =>
    intro hwf
    obtain ⟨hs, hm⟩ := hwf e (List.mem_cons_self e rest)
    cases hsucc : e.success with
    | none => rw [hsucc] at hs; simp at hs
    | some b =>
      cases b with
      | false =>
        have hns : is_success e = false := by simp [is_success, hsucc]
        rw [List.find?_cons_of_neg _ (by simp [hns])]
        have ih2 := ih (fun x hx => hwf x (List.mem_cons_of_mem e hx))
        simpa [check_history_loop, hsucc] using ih2
      | true =>
        have hys : is_success e = true := by simp [is_success, hsucc]
        rw [List.find?_cons_of_pos _ hys]
        simp [check_history_loop, hsucc, child_filter_active, hm]
        split
        · rename_i hlt
          have hnot : ¬(m * 60 ≤ now - e.sent_at) := by omega
          simp [hnot]
        · rename_i hge
          have hyes : m * 60 ≤ now - e.sent_at := by omega
          simp [hyes]

/-- In a list sorted by descending sent_at, the first row satisfying a
predicate carries the maximal sent_at among the rows satisfying it. -/
theorem find_first_is_max :
    ∀ (l : List Entry) (e : Entry),
      l.Pairwise (fun a b => b.sent_at ≤ a.sent_at) →
      e ∈ l → is_success e = true →
      (∀ x ∈ l, is_success x = true → x.sent_at ≤ e.sent_at) →
      ∃ f, l.find? is_success = some f ∧ f.sent_at = e.sent_at := by
  intro l
  induction l with
  | nil => intro e _ he; simp at he
  | cons a rest ih =>
    intro e hpw he hse hmax
    by_cases ha : is_success a = true
    · refine ⟨a, List.find?_cons_of_pos _ ha, ?_⟩
      have h1 : a.sent_at ≤ e.sent_at := hmax a (List.mem_cons_self a rest) ha
      rcases List.mem_cons.mp he with rfl | he2
      · rfl
      · have h2 : e.sent_at ≤ a.sent_at := (List.pairwise_cons.mp hpw).1 e he2
        omega
    · rw [List.find?_cons_of_neg _ ha]
      rcases List.mem_cons.mp he with rfl | he2
      · exact absurd hse ha
      · exact ih e (List.pairwise_cons.mp hpw).2 he2 hse
          (fun x hx hsx => hmax x (List.mem_cons_of_mem a hx) hsx)

/-- The fetched history of should_send_notification when the store query
works: the 10 most recent rows of the (user, type) history. -/
theorem fetched_history_eq (s : NotificationStore) (U : Nat) (K : String)
    (hq : s.query_fails = false) :
    get_notification_history s U (some K) 10 = (relevant_history s U K).take 10 := by
  unfold get_notification_history get_notification_historyE relevant_history
  simp [hq]

/-- C1 (amended): for a user and kind with no history rows the check
allows; and when the most recent successful row, appended at time T, is
among the 10 most recent rows of the (user, kind) history, the check at
time T plus d allows exactly when d reaches the interval: it refuses for
d below m minutes and allows from m minutes on.  (As literally stated the
claim is false: the scan sees only the 10 most recent rows, see the
counterexample.) -/
theorem cooldown_interval_amended (s : NotificationStore) (now : Int) (U : Nat) (K : String)
    (m : Int) (hq : s.query_fails = false) :
    (relevant_history s U K = [] → should_send_notification s now U K none m = true) ∧
    (∀ (e : Entry) (T : Int),
      (∀ x ∈ s.history, x.success.isSome = true ∧ x.sent_at_malformed = false) →
      s.history.Pairwise (fun a b => b.sent_at ≤ a.sent_at) →
      e ∈ (relevant_history s U K).take 10 →
      e.success = some true → e.sent_at = T →
      (∀ x ∈ relevant_history s U K, x.success = some true → x.sent_at ≤ T) →
      should_send_notification s now U K none m = decide (m * 60 ≤ now - T)) := by
  constructor
  · intro hrel
    simp [should_send_notification, should_send_notificationE, fetched_history_eq s U K hq, hrel]
  · intro e T hwf hpw hmem hesucc heT hmax
    subst heT
    have hse : is_success e = true := (is_success_iff e).mpr hesucc
    have hsub : List.Sublist ((relevant_history s U K).take 10) s.history :=
      List.Sublist.trans (List.take_sublist _ _) (List.filter_sublist _)
    have hpw10 : ((relevant_history s U K).take 10).Pairwise
        (fun a b => b.sent_at ≤ a.sent_at) := hpw.sublist hsub
    have hwf10 : ∀ x ∈ (relevant_history s U K).take 10,
        x.success.isSome = true ∧ x.sent_at_malformed = false :=
      fun x hx => hwf x (hsub.subset hx)
    obtain ⟨f, hfind, hfT⟩ := find_first_is_max _ e hpw10 hmem hse
      (fun x hx hsx =>
        hmax x (List.take_subset _ _ hx) ((is_success_iff x).mp hsx))
    have hne : (relevant_history s U K).take 10 ≠ [] := by
      intro h0
      rw [h0] at hmem
      simp at hmem
    have hbody : should_send_notificationE s now U K none m =
        check_history_loop now none m ((relevant_history s U K).take 10) := by
      unfold should_send_notificationE
      rw [fetched_history_eq s U K hq]
      cases hl : (relevant_history s U K).take 10 with
      | nil => exact absurd hl hne
      | cons a as => simp
    unfold should_send_notification
    rw [hbody, check_history_loop_none now m _ hwf10, hfind]
    simp [hfT]

/-- Witness store for C1: one successful reminder row at time 100. -/
def cooldown_w_store : NotificationStore :=
  ⟨[⟨1, "sleep_reminders", none, 100, false, some true, "msg", none⟩], false⟩

/-- Witness for C1: with a successful row at time 100 and a 60 minute
interval, a query at time 200 (100 seconds later) refuses. -/
theorem cooldown_interval_amended_witness :
    should_send_notification cooldown_w_store 200 1 "sleep_reminders" none 60 = false := by
  have h := (cooldown_interval_amended cooldown_w_store 200 1 "sleep_reminders" 60 rfl).2
    ⟨1, "sleep_reminders", none, 100, false, some true, "msg", none⟩ 100
    (by decide) (by simp [cooldown_w_store]) (by decide) (by decide) rfl (by decide)
  exact h.trans (by decide)

/-- Counterexample store for C1 as stated: ten more recent failed rows
push the only successful row (time 0) out of the fetched window. -/
def cooldown_cex_store : NotificationStore :=
  ⟨(List.range 10).map
      (fun i => ⟨1, "sleep_reminders", none, 1009 - (i : Int), false, some false, "failed", none⟩)
    ++ [⟨1, "sleep_reminders", none, 0, false, some true, "ok", none⟩], false⟩

/-- Counterexample to C1 as stated: the most recent successful row for
(user 1, sleep reminders) is at time 0, the query at time 60 is inside
the 60 minute interval, yet the check allows, because ten more recent
failed rows fill the fetched window. -/
theorem cooldown_interval_counterexample :
    (∃ e ∈ relevant_history cooldown_cex_store 1 SLEEP_REMINDERS,
      e.success = some true ∧ e.sent_at = 0 ∧
      ∀ x ∈ relevant_history cooldown_cex_store 1 SLEEP_REMINDERS,
        x.success = some true → x.sent_at ≤ 0) ∧
    (60 : Int) - 0 < 60 * 60 ∧
    should_send_notification cooldown_cex_store 60 1 SLEEP_REMINDERS none 60 = true := by
  decide

/-- No row of the scanned list is a stored success: the scan can refuse
nothing (it either allows or raises). -/
theorem check_history_loop_no_success (now : Int) (cid : Option String) (m : Int) :
    ∀ l : List Entry, (∀ e ∈ l, e.success ≠ some true) →
      check_history_loop now cid m l ≠ Except.ok false := by
  intro l
  induction l with
  | nil => intro _; simp [check_history_loop]
  | cons e rest ih =>
    intro hno
    have he := hno e (List.mem_cons_self e rest)
    unfold check_history_loop
    cases hsucc : e.success with
    | none => simp
    | some b =>
      cases b with
      | true => exact absurd hsucc he
      | false => simpa using ih (fun x hx => hno x (List.mem_cons_of_mem e hx))

/-- The wrapper returns true whenever the body cannot return ok false. -/
theorem should_send_of_ne_ok_false (s : NotificationStore) (now : Int) (user_id : Nat)
    (ntype : String) (cid : Option String) (m : Int)
    (h : should_send_notificationE s now user_id ntype cid m ≠ Except.ok false) :
    should_send_notification s now user_id ntype cid m = true := by
  unfold should_send_notification
  cases hE : should_send_notificationE s now user_id ntype cid m with
  | ok b =>
    cases b with
    | false => exact absurd hE h
    | true => rfl
  | error e => rfl

/-- C9: the cooldown check fails open and sees a bounded window.  If the
body raises (malformed timestamp, missing success field), the wrapper
returns true; a failing store query also yields true; and whenever no
successful row sits among the 10 most recent (user, kind) rows the check
allows, so a successful row older than those 10 rows cannot suppress a
send. -/
theorem should_send_fail_open (s : NotificationStore) (now : Int) (user_id : Nat)
    (ntype : String) (cid : Option String) (m : Int) :
    (∀ err, should_send_notificationE s now user_id ntype cid m = Except.error err →
      should_send_notification s now user_id ntype cid m = true) ∧
    (s.query_fails = true → should_send_notification s now user_id ntype cid m = true) ∧
    ((∀ e ∈ (relevant_history s user_id ntype).take 10, e.success ≠ some true) →
      should_send_notification s now user_id ntype cid m = true) := by
  refine ⟨?_, ?_, ?_⟩
  · intro err herr
    unfold should_send_notification
    rw [herr]
  · intro hq
    apply should_send_of_ne_ok_false
    unfold should_send_notificationE get_notification_history get_notification_historyE
    simp [hq]
  · intro hns
    apply should_send_of_ne_ok_false
    cases hq : s.query_fails with
    | true =>
      unfold should_send_notificationE get_notification_history get_notification_historyE
      simp [hq]
    | false =>
      unfold should_send_notificationE
      rw [fetched_history_eq s user_id ntype hq]
      cases hl : (relevant_history s user_id ntype).take 10 with
      | nil => simp
      | cons a as =>
        simp only [List.isEmpty_cons, if_false, Bool.false_eq_true]
        rw [← hl]
        exact check_history_loop_no_success now cid m _ hns

/-- Witness for C9: with a failing store query the check allows. -/
theorem should_send_fail_open_witness :
    should_send_notification ⟨[], true⟩ 0 1 "sleep_reminders" none 60 = true :=
  (should_send_fail_open ⟨[], true⟩ 0 1 "sleep_reminders" none 60).2.1 rfl

/-! Claim C2: logging on delivery outcomes. -/

/-- C2 (amended): a history row is appended only when a delivery finally
succeeds; then exactly one row per child is appended, carrying the sent
message and the platform message id with a true success flag.  Attempts
that end in a bad request or any other error append nothing (they are
only written to the application logger); rate limited attempts defer to
the outcome of the retry. -/
theorem log_only_on_success (now : Int) (user_id : Nat) :
    (∀ (infos : List ReminderInfo) (outcomes : List SendOutcome),
      (send_sleep_reminder now user_id infos outcomes).logged =
        Option.elim (delivered_message_id outcomes) []
          (fun mid => infos.map (fun info =>
            log_notification_sent now user_id SLEEP_REMINDERS (reminder_message now infos)
              (some info.child.id) (some mid) true))) ∧
    (∀ (infos : List BedtimeInfo) (outcomes : List SendOutcome),
      (send_bedtime_alert now user_id infos outcomes).logged =
        Option.elim (delivered_message_id outcomes) []
          (fun mid => infos.map (fun info =>
            log_notification_sent now user_id BEDTIME_ALERTS (bedtime_message infos)
              (some info.child.id) (some mid) true))) := by
  constructor
  · intro infos outcomes
    induction outcomes with
    | nil => rfl
    | cons o rest ih =>
      cases o <;> simp [send_sleep_reminder, delivered_message_id, ih]
  · intro infos outcomes
    induction outcomes with
    | nil => rfl
    | cons o rest ih =>
      cases o <;> simp [send_bedtime_alert, delivered_message_id, ih]

/-- Counterexample to C2 as stated: a failed delivery attempt (recipient
unreachable, and any other error) resolves without appending any history
row, for both notification kinds. -/
theorem log_on_failure_counterexample :
    (send_sleep_reminder 0 1
        [⟨⟨"child-1", "Alice", 2024, 1, false, none⟩, 4,
          ⟨90, 90, "infant (3-6 months)"⟩, none⟩]
        [SendOutcome.badRequest "chat not found"]).logged = [] ∧
    (send_bedtime_alert 0 1
        [⟨⟨"child-1", "Alice", 2024, 1, false, none⟩, 4,
          ⟨90, 90, "infant (3-6 months)"⟩, 5400, 10⟩]
        [SendOutcome.otherError "network error"]).logged = [] := by
  constructor <;> rfl

/-! Claim C6: one combined message, one log row per child. -/

/-- C6: when two or more children of one user need the same kind of
notification and the send succeeds, exactly one combined message naming
all the children is delivered, and exactly one history row per child is
appended, each carrying the sent message and (for a nonzero platform id)
the platform message id and a true success flag. -/
theorem combined_message_per_user (now : Int) (user_id : Nat) (mid : Nat)
    (rest : List SendOutcome) :
    (∀ (a b : ReminderInfo) (tl : List ReminderInfo),
      (send_sleep_reminder now user_id (a :: b :: tl)
          (SendOutcome.success mid :: rest)).sent_messages =
        [(mid, reminder_message now (a :: b :: tl))] ∧
      reminder_message now (a :: b :: tl) =
        "Hi! It is time to log sleep sessions for " ++
          String.intercalate ", " ((a :: b :: tl).map (fun info => info.child.name)) ++
          ". Do not forget to track the sleep patterns of your babies!" ∧
      (send_sleep_reminder now user_id (a :: b :: tl)
          (SendOutcome.success mid :: rest)).logged =
        (a :: b :: tl).map (fun info =>
          log_notification_sent now user_id SLEEP_REMINDERS
            (reminder_message now (a :: b :: tl)) (some info.child.id) (some mid) true) ∧
      (send_sleep_reminder now user_id (a :: b :: tl)
          (SendOutcome.success mid :: rest)).logged.length = (a :: b :: tl).length ∧
      (mid ≠ 0 →
        ∀ e ∈ (send_sleep_reminder now user_id (a :: b :: tl)
            (SendOutcome.success mid :: rest)).logged,
          e.telegram_message_id = some mid ∧
          e.message_text = reminder_message now (a :: b :: tl) ∧
          e.success = some true)) ∧
    (∀ (a b : BedtimeInfo) (tl : List BedtimeInfo),
      (send_bedtime_alert now user_id (a :: b :: tl)
          (SendOutcome.success mid :: rest)).sent_messages =
        [(mid, bedtime_message (a :: b :: tl))] ∧
      bedtime_message (a :: b :: tl) =
        "Bedtime approaching for: " ++
          String.intercalate ", " ((a :: b :: tl).map bedtime_child_detail) ++
          "! Time to start preparing for sleep." ∧
      (send_bedtime_alert now user_id (a :: b :: tl)
          (SendOutcome.success mid :: rest)).logged =
        (a :: b :: tl).map (fun info =>
          log_notification_sent now user_id BEDTIME_ALERTS
            (bedtime_message (a :: b :: tl)) (some info.child.id) (some mid) true) ∧
      (send_bedtime_alert now user_id (a :: b :: tl)
          (SendOutcome.success mid :: rest)).logged.length = (a :: b :: tl).length ∧
      (mid ≠ 0 →
        ∀ e ∈ (send_bedtime_alert now user_id (a :: b :: tl)
            (SendOutcome.success mid :: rest)).logged,
          e.telegram_message_id = some mid ∧
          e.message_text = bedtime_message (a :: b :: tl) ∧
          e.success = some true)) := by
  constructor
  · intro a b tl
    refine ⟨rfl, rfl, rfl, by simp [send_sleep_reminder], ?_⟩
    intro hmid e he
    simp only [send_sleep_reminder, List.mem_map] at he
    obtain ⟨info, hinfo, rfl⟩ := he
    simp [log_notification_sent, truthy_nat, truthy_str, hmid]
  · intro a b tl
    refine ⟨rfl, rfl, rfl, by simp [send_bedtime_alert], ?_⟩
    intro hmid e he
    simp only [send_bedtime_alert, List.mem_map] at he
    obtain ⟨info, hinfo, rfl⟩ := he
    simp [log_notification_sent, truthy_nat, truthy_str, hmid]

/-- Witness for C6: a user with two children needing reminders gets one
combined message and one history row per child carrying the message id. -/
theorem combined_message_per_user_witness :
    (send_sleep_reminder 0 7
        [⟨⟨"child-1", "Alice", 2024, 1, false, none⟩, 4,
          ⟨90, 90, "infant (3-6 months)"⟩, none⟩,
         ⟨⟨"child-2", "Bob", 2024, 1, false, none⟩, 4,
          ⟨90, 90, "infant (3-6 months)"⟩, none⟩]
        [SendOutcome.success 5]).sent_messages =
      [(5, reminder_message 0
        [⟨⟨"child-1", "Alice", 2024, 1, false, none⟩, 4,
          ⟨90, 90, "infant (3-6 months)"⟩, none⟩,
         ⟨⟨"child-2", "Bob", 2024, 1, false, none⟩, 4,
          ⟨90, 90, "infant (3-6 months)"⟩, none⟩])] ∧
    ∀ e ∈ (send_sleep_reminder 0 7
        [⟨⟨"child-1", "Alice", 2024, 1, false, none⟩, 4,
          ⟨90, 90, "infant (3-6 months)"⟩, none⟩,
         ⟨⟨"child-2", "Bob", 2024, 1, false, none⟩, 4,
          ⟨90, 90, "infant (3-6 months)"⟩, none⟩]
        [SendOutcome.success 5]).logged,
      e.telegram_message_id = some 5 := by
  have h := (combined_message_per_user 0 7 5 []).1
    ⟨⟨"child-1", "Alice", 2024, 1, false, none⟩, 4, ⟨90, 90, "infant (3-6 months)"⟩, none⟩
    ⟨⟨"child-2", "Bob", 2024, 1, false, none⟩, 4, ⟨90, 90, "infant (3-6 months)"⟩, none⟩
    []
  exact ⟨h.1, fun e he => (h.2.2.2.2 (by decide) e he).1⟩

/-! Claim C7: retry behaviour on rate limits. -/

/-- Each chain of leading rate limit outcomes produces exactly one awaited
delay per occurrence before the final delivery. -/
theorem send_sleep_reminder_waits_replicate (now : Int) (user_id : Nat)
    (infos : List ReminderInfo) (secs : Nat) (mid : Nat) :
    ∀ n : Nat,
      (send_sleep_reminder now user_id infos
        (List.replicate n (SendOutcome.retryAfter secs) ++ [SendOutcome.success mid])).waits
      = List.replicate n secs := by
  intro n
  induction n with
  | zero => rfl
  | succ k ih => simp [List.replicate_succ, send_sleep_reminder, ih]

/-- Counterexample to C7 as stated: the retry recursion has no cap, so no
uniform bound on the number of awaited retries exists; a chain of B plus
one rate limit signals forces B plus one retries. -/
theorem retry_unbounded_counterexample :
    ¬ ∃ B : Nat, ∀ outcomes : List SendOutcome,
      (send_sleep_reminder 0 1
        [⟨⟨"child-1", "Alice", 2024, 1, false, none⟩, 4,
          ⟨90, 90, "infant (3-6 months)"⟩, none⟩] outcomes).waits.length ≤ B := by
  rintro ⟨B, hB⟩
  have h := hB (List.replicate (B + 1) (SendOutcome.retryAfter 5) ++ [SendOutcome.success 1])
  rw [send_sleep_reminder_waits_replicate] at h
  simp at h

/-- C7 (amended): on a rate limit signal the sender awaits exactly the
signalled delay and retries the same delivery once for that occurrence
(so effects are those of the retry, prefixed by the wait), with no cap on
the number of occurrences; when the single retry succeeds, exactly one
history row per child is appended, every row successful — not two. -/
theorem retry_once_per_occurrence (now : Int) (user_id : Nat) :
    (∀ (infos : List ReminderInfo) (secs : Nat) (rest : List SendOutcome),
      send_sleep_reminder now user_id infos (SendOutcome.retryAfter secs :: rest) =
        ⟨(send_sleep_reminder now user_id infos rest).sent_messages,
         (send_sleep_reminder now user_id infos rest).logged,
         secs :: (send_sleep_reminder now user_id infos rest).waits⟩) ∧
    (∀ (infos : List ReminderInfo) (secs mid : Nat),
      (send_sleep_reminder now user_id infos
          [SendOutcome.retryAfter secs, SendOutcome.success mid]).waits = [secs] ∧
      (send_sleep_reminder now user_id infos
          [SendOutcome.retryAfter secs, SendOutcome.success mid]).logged.length
        = infos.length ∧
      (send_sleep_reminder now user_id infos
          [SendOutcome.retryAfter secs, SendOutcome.success mid]).logged.all
        (fun e => e.success == some true) = true) ∧
    (∀ (infos : List BedtimeInfo) (secs : Nat) (rest : List SendOutcome),
      send_bedtime_alert now user_id infos (SendOutcome.retryAfter secs :: rest) =
        ⟨(send_bedtime_alert now user_id infos rest).sent_messages,
         (send_bedtime_alert now user_id infos rest).logged,
         secs :: (send_bedtime_alert now user_id infos rest).waits⟩) ∧
    (∀ (infos : List BedtimeInfo) (secs mid : Nat),
      (send_bedtime_alert now user_id infos
          [SendOutcome.retryAfter secs, SendOutcome.success mid]).waits = [secs] ∧
      (send_bedtime_alert now user_id infos
          [SendOutcome.retryAfter secs, SendOutcome.success mid]).logged.length
        = infos.length ∧
      (send_bedtime_alert now user_id infos
          [SendOutcome.retryAfter secs, SendOutcome.success mid]).logged.all
        (fun e => e.success == some true) = true) := by
  refine ⟨?_, ?_, ?_, ?_⟩
  · intro infos secs rest
    rfl
  · intro infos secs mid
    refine ⟨rfl, by simp [send_sleep_reminder], ?_⟩
    simp [send_sleep_reminder, log_notification_sent, List.all_eq_true]
  · intro infos secs rest
    rfl
  · intro infos secs mid
    refine ⟨rfl, by simp [send_bedtime_alert], ?_⟩
    simp [send_bedtime_alert, log_notification_sent, List.all_eq_true]

/-! Claim C8: pass isolation and loop survival. -/

/-- C8: each evaluation pass is a total function that handles every user
of the list in store order, one result pair per user: a pass over a
concatenation is the concatenation of the passes, so the outcome for any
user (including any failing delivery or failing store read scripted for
it) never prevents the remaining users from being processed, and the pass
itself never propagates a per user failure. -/
theorem pass_isolation (today : CalDate) (now : Int) (s : NotificationStore) :
    (∀ us vs : List UserCtx,
      check_and_send_reminders today now s (us ++ vs) =
        check_and_send_reminders today now s us ++ check_and_send_reminders today now s vs) ∧
    (∀ users : List UserCtx,
      (check_and_send_reminders today now s users).map Prod.fst =
        users.map UserCtx.telegram_user_id) ∧
    (∀ us vs : List UserCtx,
      check_and_send_bedtime_alerts today now s (us ++ vs) =
        check_and_send_bedtime_alerts today now s us ++
          check_and_send_bedtime_alerts today now s vs) ∧
    (∀ users : List UserCtx,
      (check_and_send_bedtime_alerts today now s users).map Prod.fst =
        users.map UserCtx.telegram_user_id) := by
  refine ⟨?_, ?_, ?_, ?_⟩ <;> intros <;>
    simp [check_and_send_reminders, check_and_send_bedtime_alerts]

/-! Claim C10: per (user, kind) suppression across children. -/

/-- With a working store and a nonempty fetched window, the check body is
exactly the scan of the window. -/
theorem should_send_body_eq (s : NotificationStore) (now : Int) (U : Nat) (K : String)
    (cid : Option String) (m : Int) (hq : s.query_fails = false)
    (hne : (relevant_history s U K).take 10 ≠ []) :
    should_send_notificationE s now U K cid m =
      check_history_loop now cid m ((relevant_history s U K).take 10) := by
  unfold should_send_notificationE
  rw [fetched_history_eq s U K hq]
  cases hl : (relevant_history s U K).take 10 with
  | nil => exact absurd hl hne
  | cons a as => simp

/-- A recent row of an all successful (user, kind) history makes the
cooldown check refuse, whichever child the row belongs to. -/
theorem suppression_core (s : NotificationStore) (now : Int) (U : Nat) (K : String)
    (m : Int) (hq : s.query_fails = false) (e : Entry)
    (hpw : s.history.Pairwise (fun a b => b.sent_at ≤ a.sent_at))
    (hall : ∀ x ∈ relevant_history s U K,
      x.success = some true ∧ x.sent_at_malformed = false)
    (hmem : e ∈ relevant_history s U K)
    (hlt : now - e.sent_at < m * 60) :
    should_send_notification s now U K none m = false := by
  cases hrel : relevant_history s U K with
  | nil => rw [hrel] at hmem; simp at hmem
  | cons r rs =>
    have hrmem : r ∈ relevant_history s U K := by
      rw [hrel]
      exact List.mem_cons_self r rs
    have hr := hall r hrmem
    have hrs : is_success r = true := (is_success_iff r).mpr hr.1
    have htake : (relevant_history s U K).take 10 = r :: rs.take 9 := by
      rw [hrel]
      rfl
    have hwf10 : ∀ x ∈ (relevant_history s U K).take 10,
        x.success.isSome = true ∧ x.sent_at_malformed = false := by
      intro x hx
      have hxr := hall x (List.take_subset _ _ hx)
      exact ⟨by simp [hxr.1], hxr.2⟩
    have hfind : ((relevant_history s U K).take 10).find? is_success = some r := by
      rw [htake]
      exact List.find?_cons_of_pos _ hrs
    have hne : (relevant_history s U K).take 10 ≠ [] := by
      rw [htake]
      simp
    have hle : e.sent_at ≤ r.sent_at := by
      have hmem2 : e ∈ r :: rs := by rw [← hrel]; exact hmem
      rcases List.mem_cons.mp hmem2 with rfl | he2
      · exact le_refl _
      · have hpwrel : (relevant_history s U K).Pairwise
            (fun a b => b.sent_at ≤ a.sent_at) := hpw.sublist (List.filter_sublist _)
        rw [hrel] at hpwrel
        exact (List.pairwise_cons.mp hpwrel).1 e he2
    unfold should_send_notification
    rw [should_send_body_eq s now U K none m hq hne,
      check_history_loop_none now m _ hwf10, hfind]
    have hnot : ¬(m * 60 ≤ now - r.sent_at) := by omega
    simp [hnot]

/-- C10: both passes key the cooldown on (user, kind) only, calling the
check with no child filter, so one recent successful row — logged for any
one child — suppresses the kind for every child of that user: under an
all successful (user, kind) history, the 60 minute reminder check
(respectively the 30 minute bedtime check) refuses and the pass produces
no effect at all for that user. -/
theorem per_user_kind_suppression (s : NotificationStore) (now : Int) (today : CalDate)
    (U : Nat) (hq : s.query_fails = false) :
    (∀ e : Entry,
      s.history.Pairwise (fun a b => b.sent_at ≤ a.sent_at) →
      (∀ x ∈ relevant_history s U SLEEP_REMINDERS,
        x.success = some true ∧ x.sent_at_malformed = false) →
      e ∈ relevant_history s U SLEEP_REMINDERS →
      now - e.sent_at < 60 * 60 →
      should_send_notification s now U SLEEP_REMINDERS none 60 = false ∧
      ∀ (users : List UserCtx) (p : Nat × SendResult),
        p ∈ check_and_send_reminders today now s users → p.1 = U →
        p.2 = ⟨[], [], []⟩) ∧
    (∀ e : Entry,
      s.history.Pairwise (fun a b => b.sent_at ≤ a.sent_at) →
      (∀ x ∈ relevant_history s U BEDTIME_ALERTS,
        x.success = some true ∧ x.sent_at_malformed = false) →
      e ∈ relevant_history s U BEDTIME_ALERTS →
      now - e.sent_at < 30 * 60 →
      should_send_notification s now U BEDTIME_ALERTS none 30 = false ∧
      ∀ (users : List UserCtx) (p : Nat × SendResult),
        p ∈ check_and_send_bedtime_alerts today now s users → p.1 = U →
        p.2 = ⟨[], [], []⟩) := by
  constructor
  · intro e hpw hall hmem hlt
    have hfalse := suppression_core s now U SLEEP_REMINDERS 60 hq e hpw hall hmem hlt
    refine ⟨hfalse, ?_⟩
    intro users p hp hpU
    unfold check_and_send_reminders at hp
    obtain ⟨u, hu, rfl⟩ := List.mem_map.mp hp
    have hU : u.telegram_user_id = U := hpU
    show process_user_reminders today now s u = ⟨[], [], []⟩
    unfold process_user_reminders
    rw [hU]
    cases hinf : (get_children_needing_reminders today now u.children_query_fails
        u.children).isEmpty with
    | true => simp [hinf]
    | false => simp [hinf, hfalse]
  · intro e hpw hall hmem hlt
    have hfalse := suppression_core s now U BEDTIME_ALERTS 30 hq e hpw hall hmem hlt
    refine ⟨hfalse, ?_⟩
    intro users p hp hpU
    unfold check_and_send_bedtime_alerts at hp
    obtain ⟨u, hu, rfl⟩ := List.mem_map.mp hp
    have hU : u.telegram_user_id = U := hpU
    show process_user_bedtime today now s u = ⟨[], [], []⟩
    unfold process_user_bedtime
    rw [hU]
    cases hinf : (get_children_needing_bedtime_alerts today now u.children_query_fails
        u.children).isEmpty with
    | true => simp [hinf]
    | false => simp [hinf, hfalse]

/-- Witness store for C10: one successful reminder row for child 1 of
user 7 at time 1000. -/
def suppression_w_store : NotificationStore :=
  ⟨[⟨7, "sleep_reminders", some "child-1", 1000, false, some true, "msg", none⟩], false⟩

/-- Witness user for C10: user 7 with a different child (no sessions, so
it needs a reminder) and a delivery that would succeed. -/
def suppression_w_user : UserCtx :=
  ⟨7, false, [⟨"child-2", "Bob", 2024, 1, false, none⟩], [SendOutcome.success 1]⟩

/-- Witness for C10: 500 seconds after a successful reminder logged for
one child, the check refuses for user 7 and the pass produces no effect
for that user, even though another child needs a reminder. -/
theorem per_user_kind_suppression_witness :
    should_send_notification suppression_w_store 1500 7 SLEEP_REMINDERS none 60 = false ∧
    process_user_reminders ⟨2024, 5⟩ 1500 suppression_w_store suppression_w_user
      = ⟨[], [], []⟩ := by
  have h := (per_user_kind_suppression suppression_w_store 1500 ⟨2024, 5⟩ 7 rfl).1
    ⟨7, "sleep_reminders", some "child-1", 1000, false, some true, "msg", none⟩
    (by simp [suppression_w_store]) (by decide) (by decide) (by decide)
  refine ⟨h.1, ?_⟩
  exact h.2 [suppression_w_user]
    (7, process_user_reminders ⟨2024, 5⟩ 1500 suppression_w_store suppression_w_user)
    (by simp [check_and_send_reminders, suppression_w_user]) rfl

end BabySleep
